import Mathlib

/-!
# NeuraScore scoring engine — shallow embedding

A shallow embedding of the Python scoring engine of the
NeuraScore repository (`python-services/`), faithful to the source:

* `neurascore_engine.py` — the four pillar scorers, the overall-score
  combiner and the percentile rank (`NeuraScoreEngine`);
* `data_processor.py` — the Shannon diversity index
  (`DataProcessor._calculate_diversity_index`);
* `insight_generator.py` — the organisational insight rules
  (`InsightGenerator._generate_organizational_insights`);
* `advanced_insights.py` — the insufficient-data guard of
  `AdvancedInsightsEngine.analyze_user_patterns`;
* `main.py` — the `process_data` / `calculate_scores` endpoints and the
  mutual exclusion on the processing-status flag.

Numeric values are modelled as rationals (`ℚ`).  The transcendental
functions the source applies pointwise (`np.log1p`, `np.log`) are taken
as parameters `log1p, log : ℚ → ℚ`, with the single algebraic fact the
claims need (`log 1 = 0`) assumed where used.  Exceptions are modelled
by `Option`/`Except`: the source's `try/except` blocks become `Option`
computations whose `none` branch produces the handler's fallback value.
-/

namespace NeuraScore

/-- Model of `np.clip x lo hi`. -/
def clip (lo hi x : ℚ) : ℚ := max lo (min hi x)

/-- Minimum of a list of rationals (`0` on the empty list, which is only
ever taken on empty batches where the value is unused). -/
def listMin : List ℚ → ℚ
  | [] => 0
  | x :: xs => xs.foldl min x

/-- Maximum of a list of rationals. -/
def listMax : List ℚ → ℚ
  | [] => 0
  | x :: xs => xs.foldl max x

/-- Model of `sklearn.preprocessing.MinMaxScaler` applied to one column: maps `x`
to `(x - min) / (max - min)`; on a zero-variance (constant) column the
scaler substitutes a data range of `1`, so every entry maps to `0`. -/
def normVal (col : List ℚ) (x : ℚ) : ℚ :=
  if listMax col = listMin col then 0
  else (x - listMin col) / (listMax col - listMin col)

/-- One row of the per-user feature table built by
`DataProcessor.calculate_user_metrics` (the columns the scorers read). -/
structure UserMetrics where
  user_id : String
  total_sessions : ℚ
  total_interactions : ℚ
  total_unique_records : ℚ
  unique_subjects : ℚ
  subject_diversity_score : ℚ
  sessions_per_day : ℚ
  avg_interactions_per_session : ℚ
  avg_event_diversity : ℚ
  avg_session_duration : ℚ
  activity_span_days : ℚ
  avg_unique_records_per_session : ℚ
deriving DecidableEq, Repr

/-- Model of `NeuraScoreEngine._calculate_discovery_scores`: select the five
discovery features, apply `np.log1p`, min-max normalise each column
within the batch, combine with weights `[0.2, 0.25, 0.25, 0.15, 0.15]`,
multiply by 100 and clip to `[0, 100]`. -/
def discoveryScores (log1p : ℚ → ℚ) (df : List UserMetrics) : List ℚ :=
  let c1 := df.map fun r => log1p r.total_sessions
  let c2 := df.map fun r => log1p r.total_interactions
  let c3 := df.map fun r => log1p r.total_unique_records
  let c4 := df.map fun r => log1p r.unique_subjects
  let c5 := df.map fun r => log1p r.subject_diversity_score
  df.map fun r =>
    clip 0 100 ((0.2 * normVal c1 (log1p r.total_sessions) +
                 0.25 * normVal c2 (log1p r.total_interactions) +
                 0.25 * normVal c3 (log1p r.total_unique_records) +
                 0.15 * normVal c4 (log1p r.unique_subjects) +
                 0.15 * normVal c5 (log1p r.subject_diversity_score)) * 100)

/-- Model of `NeuraScoreEngine._calculate_collaboration_scores`: features
`sessions_per_day, avg_interactions_per_session, total_unique_records`,
min-max normalised, weights `[0.4, 0.3, 0.3]`, times 100, clipped. -/
def collaborationScores (df : List UserMetrics) : List ℚ :=
  let c1 := df.map fun r => r.sessions_per_day
  let c2 := df.map fun r => r.avg_interactions_per_session
  let c3 := df.map fun r => r.total_unique_records
  df.map fun r =>
    clip 0 100 ((0.4 * normVal c1 r.sessions_per_day +
                 0.3 * normVal c2 r.avg_interactions_per_session +
                 0.3 * normVal c3 r.total_unique_records) * 100)

/-- Model of `NeuraScoreEngine._calculate_documentation_scores`: features
`avg_event_diversity, subject_diversity_score, avg_session_duration`,
min-max normalised, weights `[0.4, 0.4, 0.2]`, times 100, clipped. -/
def documentationScores (df : List UserMetrics) : List ℚ :=
  let c1 := df.map fun r => r.avg_event_diversity
  let c2 := df.map fun r => r.subject_diversity_score
  let c3 := df.map fun r => r.avg_session_duration
  df.map fun r =>
    clip 0 100 ((0.4 * normVal c1 r.avg_event_diversity +
                 0.4 * normVal c2 r.subject_diversity_score +
                 0.2 * normVal c3 r.avg_session_duration) * 100)

/-- The columns `_calculate_reuse_scores` selects into its `features`
sub-frame (`user_metrics[[...]]`, source lines 161–166).  Note that
`total_unique_records` is NOT among them. -/
def reuseSelectedColumns : List String :=
  ["total_sessions", "activity_span_days", "sessions_per_day",
   "avg_unique_records_per_session"]

/-- Column access on the full per-user feature table by name. -/
def getColumn (r : UserMetrics) (name : String) : Option ℚ :=
  if name = "total_sessions" then some r.total_sessions
  else if name = "total_interactions" then some r.total_interactions
  else if name = "total_unique_records" then some r.total_unique_records
  else if name = "unique_subjects" then some r.unique_subjects
  else if name = "subject_diversity_score" then some r.subject_diversity_score
  else if name = "sessions_per_day" then some r.sessions_per_day
  else if name = "avg_interactions_per_session" then some r.avg_interactions_per_session
  else if name = "avg_event_diversity" then some r.avg_event_diversity
  else if name = "avg_session_duration" then some r.avg_session_duration
  else if name = "activity_span_days" then some r.activity_span_days
  else if name = "avg_unique_records_per_session" then some r.avg_unique_records_per_session
  else none

/-- Column access on the `features` sub-frame of
`_calculate_reuse_scores`: a lookup of a column that was not selected
raises `KeyError`, modelled as `none`. -/
def reuseSubframeColumn (r : UserMetrics) (name : String) : Option ℚ :=
  if name ∈ reuseSelectedColumns then getColumn r name else none

/-- Elementwise fallible computation over a column: the whole column
succeeds only if every element does (a raised exception propagates). -/
def mapOption {α β : Type} (f : α → Option β) : List α → Option (List β)
  | [] => some []
  | a :: t =>
    match f a with
    | none => none
    | some b =>
      match mapOption f t with
      | none => none
      | some bs => some (b :: bs)

/-- The `reuse_ratio` column built on the `features` sub-frame of
`_calculate_reuse_scores` (source line 169):
`features['total_sessions'] / (features['total_unique_records'] + 1)`. -/
def reuseRatioEntry (r : UserMetrics) : Option ℚ :=
  match reuseSubframeColumn r "total_sessions" with
  | none => none
  | some ts =>
    match reuseSubframeColumn r "total_unique_records" with
    | none => none
    | some tur => some (ts / (tur + 1))

/-- The body of the `try` block of
`NeuraScoreEngine._calculate_reuse_scores` (source lines 159–178):
build `reuse_ratio = total_sessions / (total_unique_records + 1)` on the
`features` sub-frame, min-max normalise
`[reuse_ratio, sessions_per_day, activity_span_days]`, combine with
weights `[0.5, 0.3, 0.2]`, times 100, clipped.  `none` models a raised
exception (here the `KeyError` on `total_unique_records`, which the
sub-frame does not contain). -/
def reuseScoresTry (df : List UserMetrics) : Option (List ℚ) :=
  match mapOption reuseRatioEntry df with
  | none => none
  | some ratio =>
    match mapOption (fun r => reuseSubframeColumn r "sessions_per_day") df with
    | none => none
    | some spd =>
      match mapOption (fun r => reuseSubframeColumn r "activity_span_days") df with
      | none => none
      | some span =>
        some ((ratio.zip (spd.zip span)).map fun p =>
          clip 0 100 ((0.5 * normVal ratio p.1 +
                       0.3 * normVal spd p.2.1 +
                       0.2 * normVal span p.2.2) * 100))

/-- Model of `NeuraScoreEngine._calculate_reuse_scores`: the `try` body, with the
`except` handler returning `np.zeros(len(user_metrics))`. -/
def reuseScores (df : List UserMetrics) : List ℚ :=
  (reuseScoresTry df).getD (List.replicate df.length 0)

/-- The reuse scorer as the spec describes it.
Modelled from the spec: the reuse pillar combines
`reuse_ratio = total_sessions / (total_unique_records + 1)`,
`sessions_per_day` and `activity_span_days`, each min-max normalised
within the batch, with weights `0.50, 0.30, 0.20`, times 100, clipped to
`[0, 100]`. -/
def reuseScoresSpec (df : List UserMetrics) : List ℚ :=
  let ratio := df.map fun r => r.total_sessions / (r.total_unique_records + 1)
  let spd := df.map fun r => r.sessions_per_day
  let span := df.map fun r => r.activity_span_days
  df.map fun r =>
    clip 0 100 ((0.5 * normVal ratio (r.total_sessions / (r.total_unique_records + 1)) +
                 0.3 * normVal spd r.sessions_per_day +
                 0.2 * normVal span r.activity_span_days) * 100)

/-- The pillar weights of `NeuraScoreEngine.__init__`. -/
def pillarWeights : List (String × ℚ) :=
  [("discovery", 0.3), ("collaboration", 0.25),
   ("documentation", 0.25), ("reuse", 0.2)]

/-- Average rank (pandas `rank(method='average')`) of the value `s`
within the column `scores`: ties share the mean of their ordinal
ranks, which equals `#{t < s} + (#{t = s} + 1) / 2`. -/
def avgRank (scores : List ℚ) (s : ℚ) : ℚ :=
  (scores.countP (fun t => t < s) : ℚ) +
    ((scores.countP (fun t => t = s) : ℚ) + 1) / 2

/-- Model of `Series.rank(pct=True) * 100` for one entry of the column. -/
def percentileOf (scores : List ℚ) (s : ℚ) : ℚ :=
  avgRank scores s / (scores.length : ℚ) * 100

/-- One row of the `user_scores` table built by
`NeuraScoreEngine.calculate_all_scores`. -/
structure UserScore where
  user_id : String
  discovery_score : ℚ
  collaboration_score : ℚ
  documentation_score : ℚ
  reuse_score : ℚ
  overall_score : ℚ
  percentile_rank : ℚ
deriving DecidableEq, Repr

/-- The `overall_score` column of `calculate_all_scores` (source lines
58–64): `discovery*0.3 + collaboration*0.25 + documentation*0.25 +
reuse*0.2`, row by row. -/
def overallColumn (log1p : ℚ → ℚ) (df : List UserMetrics) : List ℚ :=
  let d := discoveryScores log1p df
  let c := collaborationScores df
  let dc := documentationScores df
  let ru := reuseScores df
  (List.range df.length).map fun i =>
    d.getD i 0 * 0.3 + c.getD i 0 * 0.25 + dc.getD i 0 * 0.25 + ru.getD i 0 * 0.2

/-- Model of `NeuraScoreEngine.calculate_all_scores`: the four pillar columns,
the weighted overall score and the percentile rank of the overall
column (`rank(pct=True) * 100`). -/
def calculateAllScores (log1p : ℚ → ℚ) (df : List UserMetrics) : List UserScore :=
  let overall := overallColumn log1p df
  (List.range df.length).map fun i =>
    { user_id := (df.get? i).elim "" UserMetrics.user_id
      discovery_score := (discoveryScores log1p df).getD i 0
      collaboration_score := (collaborationScores df).getD i 0
      documentation_score := (documentationScores df).getD i 0
      reuse_score := (reuseScores df).getD i 0
      overall_score := overall.getD i 0
      percentile_rank := percentileOf overall (overall.getD i 0) }

/-! ## Diversity index (`data_processor.py`) -/

/-- Model of `DataProcessor._calculate_diversity_index`: Shannon diversity index
of a list of labels.  Empty list returns `0.0`; otherwise
`- Σ_{count ∈ Counter(items).values()} p * log p` with `p = count / total`,
summed only over `p > 0`.  `log` stands for `np.log`. -/
def diversityIndex (log : ℚ → ℚ) (items : List String) : ℚ :=
  if items = [] then 0
  else
    let total : ℚ := items.length
    let counts := items.dedup.map fun a => ((items.count a : ℕ) : ℚ);
    - (counts.map fun c => let p := c / total; if 0 < p then p * log p else 0).sum

/-- The diversity score as the spec describes it.  Modelled from the
spec: Shannon entropy `H = -Σ p_i * ln p_i` over the label
frequencies `p_i` of the flattened label multiset. -/
def shannonEntropySpec (log : ℚ → ℚ) (items : List String) : ℚ :=
  - (items.dedup.map fun a =>
      let p := ((items.count a : ℕ) : ℚ) / (items.length : ℚ)
      p * log p).sum

/-! ## Organisational insights (`insight_generator.py`) -/

/-- An insight as far as the organisational rules are concerned
(`InsightGenerator._create_insight` type / target entity / target id). -/
structure Insight where
  itype : String
  target_entity : String
  target_id : String
deriving DecidableEq, Repr

/-- Pandas `Series.mean()`: `none` (NaN) on an empty column, for which
every `<` comparison is false. -/
def meanOpt (xs : List ℚ) : Option ℚ :=
  if xs.length = 0 then none else some (xs.sum / (xs.length : ℚ))

/-- The comparison `some a < t` in the NaN-aware sense pandas uses: a NaN mean compares
false against every threshold. -/
def meanBelow (m : Option ℚ) (t : ℚ) : Bool :=
  match m with
  | none => false
  | some a => a < t

/-- Pandas `Series.std()` (sample standard deviation, `ddof=1`) exceeds
`t ≥ 0` iff the sample variance exceeds `t^2`; on fewer than two rows
the std is NaN and the comparison is false.  This models the strict
comparison `std > t` without leaving `ℚ`. -/
def stdAbove (xs : List ℚ) (t : ℚ) : Bool :=
  if xs.length < 2 then false
  else
    let m := xs.sum / (xs.length : ℚ)
    (xs.map fun x => (x - m) ^ 2).sum / ((xs.length : ℚ) - 1) > t ^ 2

/-- Model of `InsightGenerator._generate_organizational_insights` (source lines
228–284): four independent threshold rules, evaluated in order —
`mean(overall_score) < 60 → low_discovery`,
`std(overall_score) > 25 → team_imbalance`,
`mean(documentation_score) < 50 → low_documentation`,
`mean(reuse_score) < 45 → low_reuse`, all targeting
`organization / org_001`. -/
def organizationalInsights (userScores : List UserScore) : List Insight :=
  let overall := userScores.map UserScore.overall_score
  (if meanBelow (meanOpt overall) 60 then
      [⟨"low_discovery", "organization", "org_001"⟩] else []) ++
  (if stdAbove overall 25 then
      [⟨"team_imbalance", "organization", "org_001"⟩] else []) ++
  (if meanBelow (meanOpt (userScores.map UserScore.documentation_score)) 50 then
      [⟨"low_documentation", "organization", "org_001"⟩] else []) ++
  (if meanBelow (meanOpt (userScores.map UserScore.reuse_score)) 45 then
      [⟨"low_reuse", "organization", "org_001"⟩] else [])

/-! ## Pattern analysis guard (`advanced_insights.py`) -/

/-- Result of `AdvancedInsightsEngine.analyze_user_patterns`: either the
`{"error": "Insufficient data for pattern analysis"}` dictionary or a
clustering analysis. -/
inductive PatternResult (α : Type) where
  | insufficient (msg : String)
  | analysis (totalUsers : ℕ) (clusters : α)
deriving DecidableEq, Repr

/-- Model of `AdvancedInsightsEngine.analyze_user_patterns` (source lines
29–72): with fewer than 5 users it returns the insufficient-data
dictionary before any clustering work; otherwise it standardises,
clusters and analyses (the clustering pipeline is abstracted as the
parameter `cluster`, which the guard branch never evaluates). -/
def analyzeUserPatterns {α : Type} (cluster : List UserScore → α)
    (userData : List UserScore) : PatternResult α :=
  if userData.length < 5 then
    .insufficient "Insufficient data for pattern analysis"
  else
    .analysis userData.length (cluster userData)

/-! ## API endpoints and the processing flag (`main.py`) -/

/-- The global `processing_status` record of `main.py` (the fields the
triggers touch). -/
structure ProcessingStatus where
  status : String
  progress : ℚ
  message : String
deriving DecidableEq, Repr

/-- A raised `fastapi.HTTPException`. -/
structure HTTPExceptionModel where
  status_code : ℕ
  detail : String
deriving DecidableEq, Repr

/-- Either a raised `HTTPException` or a successful JSON response
message. -/
inductive EndpointResponse where
  | raised (e : HTTPExceptionModel)
  | ok (msg : String)
deriving DecidableEq, Repr

/-- Outcome of one endpoint call: the processing-status record after the
call, the background tasks queued by the call, and the response. -/
structure EndpointOutcome where
  state : ProcessingStatus
  queued : List String
  response : EndpointResponse
deriving DecidableEq, Repr

/-- Endpoint `POST /process-data` (`main.py` lines 110–129): while the flag reads
`"processing"` it raises 409 before queueing anything or touching the
status record; otherwise it queues `run_data_processing` and resets the
status record to a fresh processing state. -/
def processData (st : ProcessingStatus) : EndpointOutcome :=
  if st.status = "processing" then
    { state := st, queued := [],
      response := .raised ⟨409, "Data processing already in progress"⟩ }
  else
    { state := { status := "processing", progress := 0,
                 message := "Starting data processing pipeline" },
      queued := ["run_data_processing"],
      response := .ok "Data processing started" }

/-- Endpoint `POST /calculate-scores` (`main.py` lines 136–147): same 409 guard
on the shared flag; on success it queues `run_score_calculation` and
leaves the status record to the background task. -/
def calculateScoresEndpoint (st : ProcessingStatus) : EndpointOutcome :=
  if st.status = "processing" then
    { state := st, queued := [],
      response := .raised ⟨409, "Processing already in progress"⟩ }
  else
    { state := st, queued := ["run_score_calculation"],
      response := .ok "Score calculation started" }

/-! ## Concrete batches used to instantiate the theorems -/

/-- A one-user batch with all-zero features. -/
def rowZero : UserMetrics :=
  ⟨"u1", 0, 0, 0, 0, 0, 0, 0, 0, 0, 0, 0⟩

/-- The `UserScore` row `calculate_all_scores` produces on `[rowZero]`:
every pillar normalises to zero on a singleton batch and the single
user's percentile is 100. -/
def uZero : UserScore := ⟨"u1", 0, 0, 0, 0, 0, 100⟩

/-- First row of a two-user batch exercising the reuse scorer:
1 session, 0 unique records, 1 session/day, activity span 1 day. -/
def reuseRowA : UserMetrics :=
  ⟨"a", 1, 0, 0, 0, 0, 1, 0, 0, 0, 1, 0⟩

/-- Second row of the reuse batch: 10 sessions, 0 unique records,
5 sessions/day, activity span 2 days. -/
def reuseRowB : UserMetrics :=
  ⟨"b", 10, 0, 0, 0, 0, 5, 0, 0, 0, 2, 0⟩

/-- A scored user with discovery 0 but strong other pillars: overall
`0*0.3 + 100*0.25 + 100*0.25 + 100*0.2 = 70`. -/
def cxUser : UserScore := ⟨"u1", 0, 100, 100, 100, 70, 100⟩

/-- First row of a batch whose `total_sessions` column is constant
(both rows have 2 sessions) while other features vary. -/
def constRowA : UserMetrics :=
  ⟨"a", 2, 3, 1, 0, 0, 0, 0, 0, 0, 1, 0⟩

/-- Second row of the constant-`total_sessions` batch. -/
def constRowB : UserMetrics :=
  ⟨"b", 2, 7, 4, 0, 0, 0, 0, 0, 0, 1, 0⟩

/-- A processing-status record of an in-flight run. -/
def inFlight : ProcessingStatus := ⟨"processing", 1/2, "Processing data"⟩

/-! ## Helper lemmas -/

lemma clip_nonneg (x : ℚ) : 0 ≤ clip 0 100 x := le_max_left _ _

lemma clip_le (x : ℚ) : clip 0 100 x ≤ 100 :=
  max_le (by norm_num) (min_le_left _ _)

lemma foldl_max_const {t : List ℚ} {x : ℚ} (h : ∀ y ∈ t, y = x) :
    t.foldl max x = x := by
  induction t with
  | nil => rfl
  | cons y t ih =>
    have hy : y = x := h y (by simp)
    simp only [List.foldl_cons, hy, max_self]
    exact ih fun z hz => h z (by simp [hz])

lemma foldl_min_const {t : List ℚ} {x : ℚ} (h : ∀ y ∈ t, y = x) :
    t.foldl min x = x := by
  induction t with
  | nil => rfl
  | cons y t ih =>
    have hy : y = x := h y (by simp)
    simp only [List.foldl_cons, hy, min_self]
    exact ih fun z hz => h z (by simp [hz])

lemma listMax_eq_listMin_of_const {xs : List ℚ} {k : ℚ}
    (h : ∀ x ∈ xs, x = k) : listMax xs = listMin xs := by
  cases xs with
  | nil => rfl
  | cons x t =>
    have ht : ∀ y ∈ t, y = x := by
      intro y hy
      rw [h y (by simp [hy]), h x (by simp)]
    simp only [listMax, listMin, foldl_max_const ht, foldl_min_const ht]

/-- A zero-variance column is normalised to the all-zero column. -/
lemma normVal_const {xs : List ℚ} {k : ℚ} (h : ∀ x ∈ xs, x = k) (y : ℚ) :
    normVal xs y = 0 := by
  simp only [normVal, if_pos (listMax_eq_listMin_of_const h)]

lemma rangeMap_getD {α : Type} (f : ℕ → α) (n i : ℕ) (h : i < n) (d : α) :
    ((List.range n).map f).getD i d = f i := by
  simp [List.getD_eq_getElem?_getD, List.getElem?_map, List.getElem?_range h]

lemma mem_rangeMap {α : Type} {f : ℕ → α} {n : ℕ} {u : α} :
    u ∈ (List.range n).map f ↔ ∃ i, i < n ∧ f i = u := by
  simp [List.mem_map, List.mem_range]

lemma reuseSubframeColumn_tur (r : UserMetrics) :
    reuseSubframeColumn r "total_unique_records" = none := by
  simp [reuseSubframeColumn, reuseSelectedColumns]

lemma reuseRatioEntry_none (r : UserMetrics) : reuseRatioEntry r = none := by
  rw [reuseRatioEntry]
  cases reuseSubframeColumn r "total_sessions" <;>
    simp [reuseSubframeColumn_tur]

/-- On every nonempty batch the `try` body of the reuse scorer raises
(`KeyError: total_unique_records`). -/
lemma reuseScoresTry_eq_none {df : List UserMetrics} (h : df ≠ []) :
    reuseScoresTry df = none := by
  cases df with
  | nil => exact absurd rfl h
  | cons r t =>
    have h2 : mapOption reuseRatioEntry (r :: t) = none := by
      rw [mapOption, reuseRatioEntry_none]
    rw [reuseScoresTry, h2]

/-- Hence on every nonempty batch the reuse scorer returns the all-zero
vector produced by the `except` handler. -/
lemma reuseScores_eq_zeros {df : List UserMetrics} (h : df ≠ []) :
    reuseScores df = List.replicate df.length 0 := by
  rw [reuseScores, reuseScoresTry_eq_none h, Option.getD_none]

lemma countP_le_split (l : List ℚ) (s : ℚ) :
    l.countP (fun t => t ≤ s) =
      l.countP (fun t => t < s) + l.countP (fun t => t = s) := by
  induction l with
  | nil => rfl
  | cons a t ih =>
    rcases lt_trichotomy a s with h | h | h
    · simp [List.countP_cons, ih, h, le_of_lt h, ne_of_lt h]
      omega
    · subst h
      simp [List.countP_cons, ih, le_refl, lt_irrefl]
      omega
    · have hne : a ≠ s := ne_of_gt h
      simp [List.countP_cons, ih, not_le.mpr h, not_lt.mpr (le_of_lt h), hne]

lemma avgRank_eq (scores : List ℚ) (s : ℚ) :
    avgRank scores s =
      ((scores.countP (fun t => t < s) : ℚ) +
       (scores.countP (fun t => t ≤ s) : ℚ) + 1) / 2 := by
  rw [avgRank, countP_le_split]
  push_cast
  ring

lemma avgRank_mono (scores : List ℚ) {s1 s2 : ℚ} (h : s1 ≤ s2) :
    avgRank scores s1 ≤ avgRank scores s2 := by
  rw [avgRank_eq, avgRank_eq]
  have h1 : scores.countP (fun t => t < s1) ≤ scores.countP (fun t => t < s2) := by
    refine List.countP_mono_left fun x _ hx => ?_
    simp only [decide_eq_true_eq] at hx ⊢
    exact lt_of_lt_of_le hx h
  have h2 : scores.countP (fun t => t ≤ s1) ≤ scores.countP (fun t => t ≤ s2) := by
    refine List.countP_mono_left fun x _ hx => ?_
    simp only [decide_eq_true_eq] at hx ⊢
    exact le_trans hx h
  have h1q : ((scores.countP (fun t => t < s1) : ℚ)) ≤
      (scores.countP (fun t => t < s2) : ℚ) := by exact_mod_cast h1
  have h2q : ((scores.countP (fun t => t ≤ s1) : ℚ)) ≤
      (scores.countP (fun t => t ≤ s2) : ℚ) := by exact_mod_cast h2
  linarith

lemma avgRank_pos {scores : List ℚ} {s : ℚ} (h : s ∈ scores) :
    1 ≤ avgRank scores s := by
  have hc : 1 ≤ scores.countP (fun t => t = s) := by
    have hpos : 0 < scores.countP (fun t => t = s) := by
      rw [List.countP_pos_iff]
      exact ⟨s, h, by simp⟩
    omega
  have hcq : (1 : ℚ) ≤ (scores.countP (fun t => t = s) : ℚ) := by exact_mod_cast hc
  have hlt : (0 : ℚ) ≤ (scores.countP (fun t => t < s) : ℚ) := by positivity
  rw [avgRank]
  linarith

lemma avgRank_le_length {scores : List ℚ} {s : ℚ} (h : s ∈ scores) :
    avgRank scores s ≤ (scores.length : ℚ) := by
  have hc : 1 ≤ scores.countP (fun t => t = s) := by
    have hpos : 0 < scores.countP (fun t => t = s) := by
      rw [List.countP_pos_iff]
      exact ⟨s, h, by simp⟩
    omega
  have hle : scores.countP (fun t => t ≤ s) ≤ scores.length :=
    List.countP_le_length _
  have hcq : (1 : ℚ) ≤ (scores.countP (fun t => t = s) : ℚ) := by exact_mod_cast hc
  have hleq : ((scores.countP (fun t => t ≤ s) : ℚ)) ≤ (scores.length : ℚ) := by
    exact_mod_cast hle
  have hsplit : ((scores.countP (fun t => t ≤ s) : ℚ)) =
      (scores.countP (fun t => t < s) : ℚ) +
      (scores.countP (fun t => t = s) : ℚ) := by
    exact_mod_cast countP_le_split scores s
  rw [avgRank]
  linarith

lemma percentileOf_mono (scores : List ℚ) {s1 s2 : ℚ} (h : s1 ≤ s2) :
    percentileOf scores s1 ≤ percentileOf scores s2 := by
  rw [percentileOf, percentileOf]
  have hn : (0 : ℚ) ≤ (scores.length : ℚ) := by positivity
  have hm := avgRank_mono scores h
  have hdiv : avgRank scores s1 / (scores.length : ℚ) ≤
      avgRank scores s2 / (scores.length : ℚ) :=
    div_le_div_of_nonneg_right hm hn
  linarith

lemma percentileOf_mem_bounds {scores : List ℚ} {s : ℚ} (h : s ∈ scores) :
    0 ≤ percentileOf scores s ∧ percentileOf scores s ≤ 100 := by
  have hlen : 0 < scores.length := List.length_pos.mpr (List.ne_nil_of_mem h)
  have hlenq : (0 : ℚ) < (scores.length : ℚ) := by exact_mod_cast hlen
  have h1 := avgRank_pos h
  have h2 := avgRank_le_length h
  constructor
  · rw [percentileOf]
    have : 0 ≤ avgRank scores s / (scores.length : ℚ) := by
      apply div_nonneg (by linarith) (le_of_lt hlenq)
    linarith
  · rw [percentileOf]
    have hdiv : avgRank scores s / (scores.length : ℚ) ≤ 1 := by
      rw [div_le_one hlenq]
      exact h2
    linarith

lemma percentileOf_unique_max {scores : List ℚ} {s : ℚ}
    (hcount : scores.countP (fun t => t = s) = 1)
    (hmax : ∀ t ∈ scores, t ≤ s) :
    percentileOf scores s = 100 := by
  have hle : scores.countP (fun t => t ≤ s) = scores.length := by
    rw [List.countP_eq_length]
    intro a ha
    simp [hmax a ha]
  have hlen : 0 < scores.length := by
    by_contra hl
    have : scores = [] := List.eq_nil_of_length_eq_zero (by omega)
    subst this
    simp at hcount
  have hlenq : (0 : ℚ) < (scores.length : ℚ) := by exact_mod_cast hlen
  have hsplit := countP_le_split scores s
  rw [percentileOf, avgRank]
  have hltc : scores.countP (fun t => t < s) = scores.length - 1 := by omega
  rw [hltc, hcount]
  have hlen1 : 1 ≤ scores.length := hlen
  push_cast [hlen1]
  field_simp

lemma mem_calculateAllScores {log1p : ℚ → ℚ} {df : List UserMetrics}
    {u : UserScore} (hu : u ∈ calculateAllScores log1p df) :
    ∃ i, i < df.length ∧
      u.discovery_score = (discoveryScores log1p df).getD i 0 ∧
      u.collaboration_score = (collaborationScores df).getD i 0 ∧
      u.documentation_score = (documentationScores df).getD i 0 ∧
      u.reuse_score = (reuseScores df).getD i 0 ∧
      u.overall_score = (overallColumn log1p df).getD i 0 ∧
      u.percentile_rank = percentileOf (overallColumn log1p df) u.overall_score := by
  simp only [calculateAllScores] at hu
  rw [mem_rangeMap] at hu
  obtain ⟨i, hi, hrow⟩ := hu
  subst hrow
  exact ⟨i, hi, rfl, rfl, rfl, rfl, rfl, rfl⟩

lemma overallColumn_getD {log1p : ℚ → ℚ} {df : List UserMetrics} {i : ℕ}
    (hi : i < df.length) :
    (overallColumn log1p df).getD i 0 =
      (discoveryScores log1p df).getD i 0 * 0.3 +
      (collaborationScores df).getD i 0 * 0.25 +
      (documentationScores df).getD i 0 * 0.25 +
      (reuseScores df).getD i 0 * 0.2 := by
  simp only [overallColumn]
  exact rangeMap_getD _ _ _ hi _

lemma overallColumn_getD_mem {log1p : ℚ → ℚ} {df : List UserMetrics} {i : ℕ}
    (hi : i < df.length) :
    (overallColumn log1p df).getD i 0 ∈ overallColumn log1p df := by
  rw [overallColumn_getD hi]
  simp only [overallColumn]
  exact List.mem_map_of_mem _ (List.mem_range.mpr hi)

lemma map_overall_calculateAllScores (log1p : ℚ → ℚ) (df : List UserMetrics) :
    (calculateAllScores log1p df).map UserScore.overall_score =
      overallColumn log1p df := by
  simp only [calculateAllScores, List.map_map]
  conv_rhs => rw [overallColumn]
  refine List.map_congr_left fun i hi => ?_
  exact overallColumn_getD (List.mem_range.mp hi)

/-! ## Evaluation of the concrete batches -/

lemma discoveryScores_rowZero : discoveryScores id [rowZero] = [0] := by
  norm_num [discoveryScores, rowZero, normVal, listMax, listMin, clip]

lemma collaborationScores_rowZero : collaborationScores [rowZero] = [0] := by
  norm_num [collaborationScores, rowZero, normVal, listMax, listMin, clip]

lemma documentationScores_rowZero : documentationScores [rowZero] = [0] := by
  norm_num [documentationScores, rowZero, normVal, listMax, listMin, clip]

lemma reuseScores_rowZero : reuseScores [rowZero] = [0] := by
  rw [reuseScores_eq_zeros (by simp)]
  rfl

lemma overallColumn_rowZero : overallColumn id [rowZero] = [0] := by
  norm_num [overallColumn, discoveryScores_rowZero, collaborationScores_rowZero,
    documentationScores_rowZero, reuseScores_rowZero,
    show List.range 1 = [0] from rfl]

lemma percentileOf_single : percentileOf [0] 0 = 100 := by
  norm_num [percentileOf, avgRank, List.countP, List.countP.go]

lemma calculateAllScores_rowZero : calculateAllScores id [rowZero] = [uZero] := by
  simp [calculateAllScores, overallColumn_rowZero, discoveryScores_rowZero,
    collaborationScores_rowZero, documentationScores_rowZero,
    reuseScores_rowZero, percentileOf_single, uZero,
    show List.range 1 = [0] from rfl, show rowZero.user_id = "u1" from rfl]

/-! ## Claims -/

/-- C1: for every user in a scoring batch, the `overall_score` computed
by `calculate_all_scores` equals the weighted sum of the four pillar
scores with fixed weights discovery 0.30, collaboration 0.25,
documentation 0.25, reuse 0.20 (weights summing to 1.0), to within
1e-6 (here: exactly, hence within the tolerance). -/
theorem overall_score_is_weighted_sum (log1p : ℚ → ℚ) (df : List UserMetrics)
    (u : UserScore) (hu : u ∈ calculateAllScores log1p df) :
    (pillarWeights.map Prod.snd).sum = 1 ∧
    |u.overall_score -
        (0.3 * u.discovery_score + 0.25 * u.collaboration_score +
         0.25 * u.documentation_score + 0.2 * u.reuse_score)| ≤ 1 / 1000000 := by
  obtain ⟨i, hi, hd, hc, hdc, hr, hov, -⟩ := mem_calculateAllScores hu
  refine ⟨by norm_num [pillarWeights], ?_⟩
  have heq : u.overall_score =
      0.3 * u.discovery_score + 0.25 * u.collaboration_score +
      0.25 * u.documentation_score + 0.2 * u.reuse_score := by
    rw [hov, overallColumn_getD hi, hd, hc, hdc, hr]
    ring
  rw [heq, sub_self, abs_zero]
  norm_num

/-- Witness for C1 at the concrete one-user batch `[rowZero]`. -/
theorem overall_score_is_weighted_sum_witness :
    (pillarWeights.map Prod.snd).sum = 1 ∧
    |uZero.overall_score -
        (0.3 * uZero.discovery_score + 0.25 * uZero.collaboration_score +
         0.25 * uZero.documentation_score + 0.2 * uZero.reuse_score)| ≤ 1 / 1000000 :=
  overall_score_is_weighted_sum id [rowZero] uZero
    (by rw [calculateAllScores_rowZero]; exact List.mem_singleton.mpr rfl)

/-- C8: with fewer than 5 users, pattern analysis returns the explicit
insufficient-data result, for every possible clustering pipeline (so
clustering is never attempted and no exception escapes). -/
theorem pattern_analysis_insufficient {α : Type} (cluster : List UserScore → α)
    (userData : List UserScore) (h : userData.length < 5) :
    analyzeUserPatterns cluster userData =
      PatternResult.insufficient "Insufficient data for pattern analysis" := by
  rw [analyzeUserPatterns, if_pos h]

/-- Witness for C8 on a concrete two-user population. -/
theorem pattern_analysis_insufficient_witness :
    ([uZero, cxUser] : List UserScore).length < 5 ∧
    analyzeUserPatterns List.length [uZero, cxUser] =
      PatternResult.insufficient "Insufficient data for pattern analysis" :=
  ⟨by decide, pattern_analysis_insufficient List.length [uZero, cxUser] (by decide)⟩

/-- C9: while the processing-status flag is `"processing"`, both
triggers are rejected with a 409 error, nothing is queued, and the
in-flight run's status record is returned unchanged. -/
theorem processing_flag_mutual_exclusion (st : ProcessingStatus)
    (h : st.status = "processing") :
    processData st =
      ⟨st, [], .raised ⟨409, "Data processing already in progress"⟩⟩ ∧
    calculateScoresEndpoint st =
      ⟨st, [], .raised ⟨409, "Processing already in progress"⟩⟩ := by
  constructor
  · rw [processData, if_pos h]
  · rw [calculateScoresEndpoint, if_pos h]

/-- Witness for C9 at a concrete in-flight status record. -/
theorem processing_flag_mutual_exclusion_witness :
    inFlight.status = "processing" ∧
    processData inFlight =
      ⟨inFlight, [], .raised ⟨409, "Data processing already in progress"⟩⟩ ∧
    calculateScoresEndpoint inFlight =
      ⟨inFlight, [], .raised ⟨409, "Processing already in progress"⟩⟩ :=
  ⟨rfl, (processing_flag_mutual_exclusion inFlight rfl).1,
    (processing_flag_mutual_exclusion inFlight rfl).2⟩

/-- C10: on every (nonempty) batch the reuse scorer's internal
computation raises (the missing `total_unique_records` column of its
sub-frame); the `except` handler turns this into the all-zero vector of
length equal to the number of users, and the scoring run still produces
one `UserScore` row per user instead of aborting. -/
theorem scorer_exception_yields_zeros (log1p : ℚ → ℚ) (df : List UserMetrics)
    (h : df ≠ []) :
    reuseScoresTry df = none ∧
    reuseScores df = List.replicate df.length 0 ∧
    (∀ s ∈ reuseScores df, s = 0) ∧
    (reuseScores df).length = df.length ∧
    (calculateAllScores log1p df).length = df.length := by
  refine ⟨reuseScoresTry_eq_none h, reuseScores_eq_zeros h, ?_, ?_, ?_⟩
  · intro s hs
    rw [reuseScores_eq_zeros h] at hs
    exact List.eq_of_mem_replicate hs
  · rw [reuseScores_eq_zeros h]
    simp
  · simp [calculateAllScores]

/-- Witness for C10 on the concrete one-user batch `[rowZero]`. -/
theorem scorer_exception_yields_zeros_witness :
    ([rowZero] : List UserMetrics) ≠ [] ∧
    reuseScoresTry [rowZero] = none ∧
    reuseScores [rowZero] = List.replicate ([rowZero] : List UserMetrics).length 0 :=
  ⟨by simp, (scorer_exception_yields_zeros id [rowZero] (by simp)).1,
    (scorer_exception_yields_zeros id [rowZero] (by simp)).2.1⟩

/-- C3: for every scoring batch, `percentile_rank` is monotone
non-decreasing in `overall_score`; a user holding a unique maximum
overall score has percentile 100; users tied on `overall_score` share
the same percentile (average-rank tie handling); and every
`percentile_rank` lies in `[0, 100]`. -/
theorem percentile_rank_properties (log1p : ℚ → ℚ) (df : List UserMetrics) :
    (∀ u ∈ calculateAllScores log1p df, ∀ v ∈ calculateAllScores log1p df,
        u.overall_score ≤ v.overall_score →
        u.percentile_rank ≤ v.percentile_rank) ∧
    (∀ u ∈ calculateAllScores log1p df,
        ((calculateAllScores log1p df).map UserScore.overall_score).countP
            (fun t => t = u.overall_score) = 1 →
        (∀ v ∈ calculateAllScores log1p df,
            v.overall_score ≤ u.overall_score) →
        u.percentile_rank = 100) ∧
    (∀ u ∈ calculateAllScores log1p df, ∀ v ∈ calculateAllScores log1p df,
        u.overall_score = v.overall_score →
        u.percentile_rank = v.percentile_rank) ∧
    (∀ u ∈ calculateAllScores log1p df,
        0 ≤ u.percentile_rank ∧ u.percentile_rank ≤ 100) := by
  refine ⟨?_, ?_, ?_, ?_⟩
  · intro u hu v hv hle
    obtain ⟨i, hi, -, -, -, -, -, hup⟩ := mem_calculateAllScores hu
    obtain ⟨j, hj, -, -, -, -, -, hvp⟩ := mem_calculateAllScores hv
    rw [hup, hvp]
    exact percentileOf_mono _ hle
  · intro u hu hcount hmax
    obtain ⟨i, hi, -, -, -, -, hov, hup⟩ := mem_calculateAllScores hu
    rw [hup]
    apply percentileOf_unique_max
    · rw [← map_overall_calculateAllScores log1p df]
      exact hcount
    · intro t ht
      rw [← map_overall_calculateAllScores log1p df] at ht
      obtain ⟨v, hv, rfl⟩ := List.mem_map.mp ht
      exact hmax v hv
  · intro u hu v hv heq
    obtain ⟨i, hi, -, -, -, -, -, hup⟩ := mem_calculateAllScores hu
    obtain ⟨j, hj, -, -, -, -, -, hvp⟩ := mem_calculateAllScores hv
    rw [hup, hvp, heq]
  · intro u hu
    obtain ⟨i, hi, -, -, -, -, hov, hup⟩ := mem_calculateAllScores hu
    rw [hup]
    apply percentileOf_mem_bounds
    rw [hov]
    exact overallColumn_getD_mem hi

/-- Witness for C3 on the concrete one-user batch: the unique maximum
gets percentile 100 and the rank stays within `[0, 100]`. -/
theorem percentile_rank_properties_witness :
    uZero.percentile_rank = 100 ∧
    0 ≤ uZero.percentile_rank ∧ uZero.percentile_rank ≤ 100 := by
  have h := percentile_rank_properties id [rowZero]
  have hmem : uZero ∈ calculateAllScores id [rowZero] := by
    rw [calculateAllScores_rowZero]
    exact List.mem_singleton.mpr rfl
  refine ⟨h.2.1 uZero hmem ?_ ?_, h.2.2.2 uZero hmem⟩
  · rw [calculateAllScores_rowZero]
    norm_num [List.countP, List.countP.go, uZero]
  · intro v hv
    rw [calculateAllScores_rowZero] at hv
    rw [List.mem_singleton.mp hv]

/-- C6: every score returned by each of the four pillar scorers lies in
`[0, 100]`, for arbitrary (also huge or negative) raw feature values:
the weighted results are clipped at both boundaries, and the reuse
scorer's fallback zero vector is inside the range as well. -/
theorem pillar_scores_within_range (log1p : ℚ → ℚ) (df : List UserMetrics) :
    (∀ s ∈ discoveryScores log1p df, 0 ≤ s ∧ s ≤ 100) ∧
    (∀ s ∈ collaborationScores df, 0 ≤ s ∧ s ≤ 100) ∧
    (∀ s ∈ documentationScores df, 0 ≤ s ∧ s ≤ 100) ∧
    (∀ s ∈ reuseScores df, 0 ≤ s ∧ s ≤ 100) := by
  refine ⟨?_, ?_, ?_, ?_⟩
  · intro s hs
    simp only [discoveryScores] at hs
    obtain ⟨r, -, rfl⟩ := List.mem_map.mp hs
    exact ⟨clip_nonneg _, clip_le _⟩
  · intro s hs
    simp only [collaborationScores] at hs
    obtain ⟨r, -, rfl⟩ := List.mem_map.mp hs
    exact ⟨clip_nonneg _, clip_le _⟩
  · intro s hs
    simp only [documentationScores] at hs
    obtain ⟨r, -, rfl⟩ := List.mem_map.mp hs
    exact ⟨clip_nonneg _, clip_le _⟩
  · intro s hs
    rcases eq_or_ne df [] with rfl | hne
    · rw [show reuseScores [] = [] from rfl] at hs
      simp at hs
    · rw [reuseScores_eq_zeros hne] at hs
      rw [List.eq_of_mem_replicate hs]
      norm_num

/-- Witness for C6 at the discovery and reuse scorers on `[rowZero]`. -/
theorem pillar_scores_within_range_witness :
    (0 ≤ (discoveryScores id [rowZero]).getD 0 0 ∧
      (discoveryScores id [rowZero]).getD 0 0 ≤ 100) ∧
    (0 ≤ (reuseScores [rowZero]).getD 0 0 ∧
      (reuseScores [rowZero]).getD 0 0 ≤ 100) :=
  ⟨(pillar_scores_within_range id [rowZero]).1 _
      (by rw [discoveryScores_rowZero]; simp),
   (pillar_scores_within_range id [rowZero]).2.2.2 _
      (by rw [reuseScores_rowZero]; simp)⟩

/-- C7: on a batch whose `total_sessions` feature column is constant
(zero variance), the discovery scorer is total (no exception in the
model) and the normalised column is identically zero, so the scorer
output equals the weighted sum with that column's contribution
dropped — not a division by zero. -/
theorem zero_variance_column_yields_zero (log1p : ℚ → ℚ)
    (df : List UserMetrics) (k : ℚ) (h : ∀ r ∈ df, r.total_sessions = k) :
    (∀ r ∈ df,
        normVal (df.map fun r => log1p r.total_sessions)
          (log1p r.total_sessions) = 0) ∧
    discoveryScores log1p df = df.map (fun r =>
      clip 0 100
        ((0.25 * normVal (df.map fun r => log1p r.total_interactions)
            (log1p r.total_interactions) +
          0.25 * normVal (df.map fun r => log1p r.total_unique_records)
            (log1p r.total_unique_records) +
          0.15 * normVal (df.map fun r => log1p r.unique_subjects)
            (log1p r.unique_subjects) +
          0.15 * normVal (df.map fun r => log1p r.subject_diversity_score)
            (log1p r.subject_diversity_score)) * 100)) := by
  have hcol : ∀ x ∈ df.map (fun r => log1p r.total_sessions), x = log1p k := by
    intro x hx
    obtain ⟨r, hr, rfl⟩ := List.mem_map.mp hx
    rw [h r hr]
  have hnv : ∀ y, normVal (df.map fun r => log1p r.total_sessions) y = 0 :=
    fun y => normVal_const hcol y
  refine ⟨fun r _ => hnv _, ?_⟩
  simp only [discoveryScores]
  refine List.map_congr_left fun r hr => ?_
  rw [hnv]
  congr 1
  ring

/-- Witness for C7 on a concrete batch whose `total_sessions` column is
constantly 2. -/
theorem zero_variance_column_yields_zero_witness :
    normVal ([constRowA, constRowB].map fun r => id r.total_sessions)
      (id constRowA.total_sessions) = 0 :=
  (zero_variance_column_yields_zero id [constRowA, constRowB] 2
      (by intro r hr; simp at hr; rcases hr with rfl | rfl <;> rfl)).1
    constRowA (by simp)

/-- C2 (code bug): on the two-user batch `[reuseRowA, reuseRowB]` the
reuse scorer's `try` body raises (`total_unique_records` is missing
from its own `features` sub-frame) and the scorer returns `[0, 0]`,
whereas the spec's formula — reuse_ratio, sessions_per_day,
activity_span_days normalised and weighted 0.5/0.3/0.2 — yields
`[0, 100]`.  The code never computes the documented combination. -/
theorem reuse_scorer_key_error_bug :
    reuseScoresTry [reuseRowA, reuseRowB] = none ∧
    reuseScores [reuseRowA, reuseRowB] = [0, 0] ∧
    reuseScoresSpec [reuseRowA, reuseRowB] = [0, 100] ∧
    reuseScores [reuseRowA, reuseRowB] ≠
      reuseScoresSpec [reuseRowA, reuseRowB] := by
  have h2 : reuseScores [reuseRowA, reuseRowB] = [0, 0] := by
    rw [reuseScores_eq_zeros (by simp)]
    rfl
  have h3 : reuseScoresSpec [reuseRowA, reuseRowB] = [0, 100] := by
    norm_num [reuseScoresSpec, reuseRowA, reuseRowB, normVal, listMax,
      listMin, clip]
  refine ⟨reuseScoresTry_eq_none (by simp), h2, h3, ?_⟩
  rw [h2, h3]
  norm_num

/-- C4 counterexample: a population whose discovery mean (0) is below
50 but whose overall mean (70) is not below 60 gets NO `low_discovery`
organisational insight — the rule is keyed to the overall mean at
threshold 60, not the discovery mean at 50. -/
theorem low_discovery_rule_counterexample :
    meanBelow (meanOpt ([cxUser].map UserScore.discovery_score)) 50 = true ∧
    Insight.mk "low_discovery" "organization" "org_001" ∉
      organizationalInsights [cxUser] := by
  constructor
  · norm_num [meanBelow, meanOpt, cxUser]
  · norm_num [organizationalInsights, meanBelow, meanOpt, stdAbove, cxUser]

/-- C4 amended: whenever the population mean of `overall_score` is
strictly below 60, a `low_discovery` insight targeting the organization
is emitted (the rule is keyed to the overall mean with threshold 60). -/
theorem low_discovery_rule_amended (scores : List UserScore)
    (h : meanBelow (meanOpt (scores.map UserScore.overall_score)) 60 = true) :
    Insight.mk "low_discovery" "organization" "org_001" ∈
      organizationalInsights scores := by
  simp [organizationalInsights, h]

/-- Witness for the amended C4 on a concrete one-user population with
overall score 0. -/
theorem low_discovery_rule_amended_witness :
    Insight.mk "low_discovery" "organization" "org_001" ∈
      organizationalInsights [uZero] :=
  low_discovery_rule_amended [uZero] (by norm_num [meanBelow, meanOpt, uZero])

lemma diversityIndex_eq_spec (log : ℚ → ℚ) (items : List String) :
    diversityIndex log items = shannonEntropySpec log items := by
  rcases eq_or_ne items [] with rfl | hne
  · simp [diversityIndex, shannonEntropySpec]
  · rw [diversityIndex, if_neg hne, shannonEntropySpec]
    simp only [List.map_map]
    congr 1
    refine congrArg List.sum (List.map_congr_left fun x hx => ?_)
    have hmem : x ∈ items := List.mem_dedup.mp hx
    have hcount : 0 < items.count x := List.count_pos_iff.mpr hmem
    have hlen : 0 < items.length := List.length_pos.mpr hne
    have hp : (0 : ℚ) < (items.count x : ℚ) / (items.length : ℚ) := by
      apply div_pos
      · exact_mod_cast hcount
      · exact_mod_cast hlen
    simp only [Function.comp]
    rw [if_pos hp]

/-- C5: the subject diversity score is exactly the Shannon entropy
`-Σ p_i log p_i` over the label frequencies of the flattened multiset;
on the empty label list it is exactly 0 (no NaN, no error), and on a
single label repeated `n > 0` times it is exactly 0 (using only
`log 1 = 0`, true of `np.log`). -/
theorem diversity_index_shannon (log : ℚ → ℚ) (items : List String)
    (a : String) (n : ℕ) (hlog : log 1 = 0) (hn : 0 < n) :
    diversityIndex log items = shannonEntropySpec log items ∧
    diversityIndex log [] = 0 ∧
    diversityIndex log (List.replicate n a) = 0 := by
  refine ⟨diversityIndex_eq_spec log items, rfl, ?_⟩
  rw [diversityIndex_eq_spec]
  have hn0 : ((n : ℕ) : ℚ) ≠ 0 := by
    exact_mod_cast hn.ne'
  have hded : (List.replicate n a).dedup = [a] :=
    List.replicate_dedup hn.ne'
  simp [shannonEntropySpec, hded, List.count_replicate, List.length_replicate,
    div_self hn0, hlog]

/-- Witness for C5 with the concrete logarithm stub `fun _ => 0`
(which satisfies `log 1 = 0`), a two-label list and `n = 3`. -/
theorem diversity_index_shannon_witness :
    ((fun _ : ℚ => (0 : ℚ)) 1 = 0) ∧ (0 < 3) ∧
    diversityIndex (fun _ => 0) ["x", "y"] =
      shannonEntropySpec (fun _ => 0) ["x", "y"] ∧
    diversityIndex (fun _ => 0) [] = 0 ∧
    diversityIndex (fun _ => 0) (List.replicate 3 "z") = 0 :=
  ⟨rfl, by decide,
    diversity_index_shannon (fun _ => 0) ["x", "y"] "z" 3 rfl (by decide)⟩

end NeuraScore
